import Mathlib

/-!
Verification of the KK-Switch debounced-polling engine and its reference
analyzers (`Switch.cpp`, `SwitchExtensions.h`, `SwitchRotaryEncoder.h`):
a shallow embedding of the C++ classes as pure Lean functions over explicit
state records, plus theorems checking the specification's claims.

Machine integers are modelled as `Nat` with explicit truncation where the
C code performs it: `unsigned long` subtraction of `millis()` values is
wrap-safe modulo `2^32`, the cast `(unsigned int)` truncates modulo `2^16`,
and a `byte` result truncates modulo `2^8`.
-/

/-- Truncation of a C `byte` (uint8) result. -/
def u8 (n : Nat) : Nat := n % 256

/-- Truncation performed by a C cast to `unsigned int` (16-bit on the AVR
target, matching the sources' remark that 65 seconds are supported). -/
def u16 (n : Nat) : Nat := n % 65536

/-- Wrap-safe `unsigned long` subtraction `a - b` modulo `2^32`, as the C
code computes `current - _lastReadMillis` and `current - _procStart`. -/
def usub32 (a b : Nat) : Nat := (a % 4294967296 + 4294967296 - b % 4294967296) % 4294967296

/-- Modelled from the spec: `SW_STATE_UNDEFINED` from the missing header
`Switch.h`, the reserved sentinel meaning "no sample taken yet", outside
every valid output alphabet `[0, 64)`; the internal analyzer sentinels in
the present headers use `0xFF` for the same purpose. -/
def SW_STATE_UNDEFINED : Nat := 255

/-- Modelled from the spec: `SW_STATE_DEFAULT_OFF` from the missing header
`Switch.h`, the released raw symbol of a plain binary pin. -/
def SW_STATE_DEFAULT_OFF : Nat := 0

/-- Modelled from the spec: `SW_STATE_DEFAULT_ON` from the missing header
`Switch.h`, the pressed raw symbol of a plain binary pin. -/
def SW_STATE_DEFAULT_ON : Nat := 1

/-- The immutable configuration of a `Switch` instance, fixed by `init`:
`_numState`, `_readCycleMillis`, `_debounceMillis`, `_invertRaw`. -/
structure SwitchConfig where
  numState : Nat
  readCycleMillis : Nat
  debounceMillis : Nat
  invertRaw : Bool
deriving Repr, DecidableEq

/-- The mutable fields of a `Switch` instance: `_currentState`,
`_previousState`, `_lastRawState`, `_lastReadMillis`, `_debouncing`, and
the mapping buffer `_mapValues` (`none` models a null pointer). -/
structure SwitchState where
  currentState : Nat
  previousState : Nat
  lastRawState : Nat
  lastReadMillis : Nat
  debouncing : Bool
  mapValues : Option (List Nat)
deriving Repr, DecidableEq

/-- The `SwitchStateAnalyzer` capability contract: an attached analyzer
with internal state of type `σ`. `getAnalyzerState` takes the internal
state, the current `millis()` value and the committed raw symbol, and
returns the advanced internal state together with the output state.
`resetState` is the analyzer's `reset()`. -/
structure SSA (σ : Type) where
  numSwitchStates : Nat
  getAnalyzerState : σ → Nat → Nat → σ × Nat
  resetState : σ → σ

/-- `_SSA != 0 ? _SSA->getNumSwitchStates() : _numState` — the raw alphabet
size used for inversion in `Switch::hasChanged`. -/
def effNumSwitch {σ : Type} (ssa : Option (SSA σ)) (cfg : SwitchConfig) : Nat :=
  match ssa with
  | some a => a.numSwitchStates
  | none => cfg.numState

/-- The inversion `rawState = n - 1 - rawState` of `Switch::hasChanged`,
computed in `int` and stored back into a `byte`, hence modulo 256
(`n + 255 - raw` is congruent to `n - 1 - raw` and never negative). -/
def invertSym (n raw : Nat) : Nat := (n + 255 - raw % 256) % 256

/-- The raw symbol after optional inversion, as sampled by one call of
`Switch::hasChanged` that actually reads the port. -/
def effRaw {σ : Type} (ssa : Option (SSA σ)) (cfg : SwitchConfig) (raw : Nat) : Nat :=
  if cfg.invertRaw then invertSym (effNumSwitch ssa cfg) raw else raw

/-- `Switch::hasChanged` (the `poll()` operation), embedded as a pure
function: given the optional analyzer, the configuration, the engine
state, the analyzer's internal state, the current `millis()` value and
the value the port would deliver if read, it returns the new engine
state, the new analyzer state, and the boolean result. -/
def hasChanged {σ : Type} (ssa : Option (SSA σ)) (cfg : SwitchConfig)
    (sw : SwitchState) (a : σ) (current rawRead : Nat) :
    SwitchState × σ × Bool :=
  let timeDiff := usub32 current sw.lastReadMillis
  if sw.debouncing ∧ timeDiff < cfg.debounceMillis then
    (sw, a, false)
  else if ¬sw.debouncing ∧ cfg.readCycleMillis > 0 ∧ timeDiff < cfg.readCycleMillis then
    (sw, a, false)
  else
    let rawState := effRaw ssa cfg rawRead
    let sw1 := { sw with lastReadMillis := current }
    if ¬sw.debouncing ∧ cfg.debounceMillis > 0 ∧ sw.lastRawState ≠ rawState then
      ({ sw1 with debouncing := true }, a, false)
    else
      let sw2 := { sw1 with debouncing := false, lastRawState := rawState }
      let next := match ssa with
        | some an => an.getAnalyzerState a current rawState
        | none => (a, rawState)
      if next.2 ≠ sw.currentState then
        ({ sw2 with previousState := sw.currentState, currentState := next.2 }, next.1, true)
      else
        (sw2, next.1, false)

/-- A concrete configuration for witnesses: a plain 2-state switch with no
cadence and no debounce window. -/
def cfgW : SwitchConfig := ⟨2, 0, 0, false⟩

/-- A concrete configuration for witnesses: a plain 2-state switch with no
cadence and a 20 ms debounce window. -/
def cfgD : SwitchConfig := ⟨2, 0, 20, false⟩

/-- The freshly initialized engine state (all caches `UNDEFINED`, timer 0,
not debouncing, mapping disabled), as `Switch::init` leaves them. -/
def swW : SwitchState := ⟨255, 255, 255, 0, false, none⟩

/-- `numState < 2 ? 2 : numState > 64 ? 64 : numState` — the clamp
`Switch::init` applies to the output alphabet size. -/
def clampNumState (n : Nat) : Nat := if n < 2 then 2 else if n > 64 then 64 else n

/-- The configuration part of `Switch::init`. -/
def Switch.initConfig (numState readCycleMillis debounceMillis : Nat)
    (invertRaw : Bool) : SwitchConfig :=
  { numState := clampNumState numState, readCycleMillis := readCycleMillis,
    debounceMillis := debounceMillis, invertRaw := invertRaw }

/-- The mutable-state part of `Switch::init`: caches at `UNDEFINED`, timer
0, not debouncing; with mapping enabled the buffer (caller supplied or
allocated) is identity-initialized over `0 .. numState-1`, otherwise
`_mapValues` keeps the handed-over pointer. -/
def Switch.initState (numState : Nat) (enableMapping : Bool)
    (bufferMapping : Option (List Nat)) : SwitchState :=
  { currentState := SW_STATE_UNDEFINED, previousState := SW_STATE_UNDEFINED,
    lastRawState := SW_STATE_UNDEFINED, lastReadMillis := 0, debouncing := false,
    mapValues := if enableMapping then some (List.range (clampNumState numState))
      else bufferMapping }

/-- `Switch::getState`. -/
def Switch.getState (sw : SwitchState) : Nat := sw.currentState

/-- `Switch::getPrevState`. -/
def Switch.getPrevState (sw : SwitchState) : Nat := sw.previousState

/-- `Switch::getMappedState`: `currentState` itself when the table is null
or the state is `UNDEFINED`, else the table entry. -/
def Switch.getMappedState (sw : SwitchState) : Nat :=
  match sw.mapValues with
  | none => sw.currentState
  | some m =>
    if sw.currentState = SW_STATE_UNDEFINED then sw.currentState else m.getD sw.currentState 0

/-- `Switch::getPrevMappedState`. -/
def Switch.getPrevMappedState (sw : SwitchState) : Nat :=
  match sw.mapValues with
  | none => sw.previousState
  | some m =>
    if sw.previousState = SW_STATE_UNDEFINED then sw.previousState else m.getD sw.previousState 0

/-- `Switch::setMapping`: a no-op when the table is null or the state is
out of range, else overwrites one entry. -/
def Switch.setMapping (cfg : SwitchConfig) (sw : SwitchState) (state mappingValue : Nat) :
    SwitchState :=
  match sw.mapValues with
  | none => sw
  | some m =>
    if state ≥ cfg.numState then sw
    else { sw with mapValues := some (m.set state mappingValue) }

/-- The engine-field part of `Switch::reset`: caches back to `UNDEFINED`,
timer and debounce flag cleared; `_mapValues` is not touched. -/
def Switch.resetState (sw : SwitchState) : SwitchState :=
  { sw with
    currentState := SW_STATE_UNDEFINED
    previousState := SW_STATE_UNDEFINED
    lastRawState := SW_STATE_UNDEFINED
    lastReadMillis := 0
    debouncing := false }

/-- `Switch::reset`: resets the engine fields and the attached analyzer. -/
def Switch.reset {σ : Type} (ssa : Option (SSA σ)) (sw : SwitchState) (a : σ) :
    SwitchState × σ :=
  (Switch.resetState sw,
    match ssa with
    | some an => an.resetState a
    | none => a)

/-- `PBR_STATE_E_OFF`. -/
def PBR_STATE_E_OFF : Nat := 0
/-- `PBR_STATE_E_SINGLE`. -/
def PBR_STATE_E_SINGLE : Nat := 1
/-- `PBR_STATE_E_CONT_A`. -/
def PBR_STATE_E_CONT_A : Nat := 2
/-- `PBR_STATE_E_CONT_B`. -/
def PBR_STATE_E_CONT_B : Nat := 3
/-- `PBR_STATE_I_OFF`. -/
def PBR_STATE_I_OFF : Nat := 4
/-- `PBR_STATE_I_ON`. -/
def PBR_STATE_I_ON : Nat := 5
/-- `PBR_STATE_I_CONT_A`. -/
def PBR_STATE_I_CONT_A : Nat := 6
/-- `PBR_STATE_I_CONT_B`. -/
def PBR_STATE_I_CONT_B : Nat := 7
/-- `PBR_STATE_I_UNDEFINED` (`0xFF`). -/
def PBR_STATE_I_UNDEFINED : Nat := 255

/-- The fields of a `PushButtonRepeatAnalyzer` instance. -/
structure PBRState where
  longStartMillis : Nat
  repeatMillis : Nat
  procStart : Nat
  internalState : Nat
deriving Repr, DecidableEq

/-- `PushButtonRepeatAnalyzer::init` (run by both constructors): clamps
both timing parameters to 2000 and resets. -/
def PBR.init (longStartMillis repeatMillis : Nat) : PBRState :=
  { longStartMillis := if longStartMillis > 2000 then 2000 else longStartMillis,
    repeatMillis := if repeatMillis > 2000 then 2000 else repeatMillis,
    procStart := 0, internalState := PBR_STATE_I_UNDEFINED }

/-- `PushButtonRepeatAnalyzer::reset`. -/
def PBR.reset (s : PBRState) : PBRState :=
  { s with internalState := PBR_STATE_I_UNDEFINED, procStart := 0 }

/-- `PushButtonRepeatAnalyzer::getReadCycleMillis`:
`max(_repeatMillis / 20, 1)` returned as a byte. -/
def PBR.getReadCycleMillis (s : PBRState) : Nat := u8 (max (s.repeatMillis / 20) 1)

/-- `PushButtonRepeatAnalyzer::getAnalyzerState`, embedded with the
current `millis()` value passed explicitly. -/
def PBR.getAnalyzerState (s : PBRState) (current switchState : Nat) : PBRState × Nat :=
  let s0 := if s.internalState = PBR_STATE_I_UNDEFINED then
      (if switchState = SW_STATE_DEFAULT_ON then
        { s with procStart := current, internalState := PBR_STATE_I_ON }
      else { s with internalState := PBR_STATE_I_OFF })
    else s
  let procDuration := u16 (usub32 current s0.procStart)
  let repeatDuration := if s0.repeatMillis > 0 ∧ procDuration > s0.longStartMillis then
      (procDuration - s0.longStartMillis) % (2 * s0.repeatMillis)
    else 0
  if s0.internalState = PBR_STATE_I_OFF then
    if switchState = SW_STATE_DEFAULT_ON then
      ({ s0 with procStart := current, internalState := PBR_STATE_I_ON }, PBR_STATE_E_OFF)
    else (s0, PBR_STATE_E_OFF)
  else if s0.internalState = PBR_STATE_I_ON then
    if switchState = SW_STATE_DEFAULT_ON then
      if s0.longStartMillis > 0 ∧ procDuration ≥ s0.longStartMillis then
        ({ s0 with internalState := PBR_STATE_I_CONT_A }, PBR_STATE_E_CONT_A)
      else (s0, PBR_STATE_E_OFF)
    else ({ s0 with internalState := PBR_STATE_I_OFF, procStart := 0 }, PBR_STATE_E_SINGLE)
  else if s0.internalState = PBR_STATE_I_CONT_A then
    if switchState = SW_STATE_DEFAULT_ON then
      if repeatDuration ≥ s0.repeatMillis then
        ({ s0 with internalState := PBR_STATE_I_CONT_B }, PBR_STATE_E_CONT_B)
      else (s0, PBR_STATE_E_CONT_A)
    else ({ s0 with internalState := PBR_STATE_I_OFF, procStart := 0 }, PBR_STATE_E_OFF)
  else if s0.internalState = PBR_STATE_I_CONT_B then
    if switchState = SW_STATE_DEFAULT_ON then
      if repeatDuration < s0.repeatMillis then
        ({ s0 with internalState := PBR_STATE_I_CONT_A }, PBR_STATE_E_CONT_A)
      else (s0, PBR_STATE_E_CONT_B)
    else ({ s0 with internalState := PBR_STATE_I_OFF, procStart := 0 }, PBR_STATE_E_OFF)
  else (s0, PBR_STATE_E_OFF)

/-- Stepping `PushButtonRepeatAnalyzer` over a list of
(`millis()` value, raw symbol) pairs, collecting the outputs. -/
def PBR.run (s : PBRState) : List (Nat × Nat) → List Nat
  | [] => []
  | x :: xs =>
    let r := PBR.getAnalyzerState s x.1 x.2
    r.2 :: PBR.run r.1 xs

/-- `PBDL_STATE_E_OFF`. -/
def PBDL_STATE_E_OFF : Nat := 0
/-- `PBDL_STATE_E_SINGLE`. -/
def PBDL_STATE_E_SINGLE : Nat := 1
/-- `PBDL_STATE_E_DOUBLE`. -/
def PBDL_STATE_E_DOUBLE : Nat := 2
/-- `PBDL_STATE_E_LONG`. -/
def PBDL_STATE_E_LONG : Nat := 3
/-- `PBDL_STATE_I_OFF`. -/
def PBDL_STATE_I_OFF : Nat := 4
/-- `PBDL_STATE_I_ON`. -/
def PBDL_STATE_I_ON : Nat := 5
/-- `PBDL_STATE_I_DBLOFF`. -/
def PBDL_STATE_I_DBLOFF : Nat := 6
/-- `PBDL_STATE_I_DBL2ON`. -/
def PBDL_STATE_I_DBL2ON : Nat := 7
/-- `PBDL_STATE_I_LONGTIMEOUT`. -/
def PBDL_STATE_I_LONGTIMEOUT : Nat := 8
/-- `PBDL_STATE_I_UNDEFINED` (`0xFF`). -/
def PBDL_STATE_I_UNDEFINED : Nat := 255

/-- The fields of a `PushButtonDoubleLongAnalyzer` instance. -/
structure PBDLState where
  maxDoubleMillis : Nat
  minLongMillis : Nat
  endLongByTime : Bool
  procStart : Nat
  internalState : Nat
deriving Repr, DecidableEq

/-- `PushButtonDoubleLongAnalyzer::init` (run by both constructors):
stores the parameters unclamped and resets. -/
def PBDL.init (maxDoubleMillis minLongMillis : Nat) (endLongByTime : Bool) : PBDLState :=
  { maxDoubleMillis := maxDoubleMillis, minLongMillis := minLongMillis,
    endLongByTime := endLongByTime, procStart := 0,
    internalState := PBDL_STATE_I_UNDEFINED }

/-- `PushButtonDoubleLongAnalyzer::reset`. -/
def PBDL.reset (s : PBDLState) : PBDLState :=
  { s with internalState := PBDL_STATE_I_UNDEFINED, procStart := 0 }

/-- `PushButtonDoubleLongAnalyzer::getReadCycleMillis`:
`max(_maxDoubleMillis, _minLongMillis) / 20` returned as a byte. -/
def PBDL.getReadCycleMillis (s : PBDLState) : Nat :=
  u8 (max s.maxDoubleMillis s.minLongMillis / 20)

/-- `PushButtonDoubleLongAnalyzer::getAnalyzerState`, embedded with the
current `millis()` value passed explicitly; the two timeout checks come
before the normal edge transitions, as in the source. -/
def PBDL.getAnalyzerState (s : PBDLState) (current switchState : Nat) : PBDLState × Nat :=
  let s0 := if s.internalState = PBDL_STATE_I_UNDEFINED then
      (if switchState = SW_STATE_DEFAULT_ON then
        { s with procStart := current, internalState := PBDL_STATE_I_ON }
      else { s with internalState := PBDL_STATE_I_OFF })
    else s
  let procDuration := u16 (usub32 current s0.procStart)
  if s0.minLongMillis > 0 ∧ procDuration > s0.minLongMillis ∧
      s0.internalState = PBDL_STATE_I_ON ∧ s0.endLongByTime = true then
    ({ s0 with internalState := PBDL_STATE_I_LONGTIMEOUT }, PBDL_STATE_E_LONG)
  else if s0.maxDoubleMillis > 0 ∧ procDuration > s0.maxDoubleMillis ∧
      (s0.internalState = PBDL_STATE_I_DBLOFF ∨ s0.internalState = PBDL_STATE_I_DBL2ON) then
    (if switchState = SW_STATE_DEFAULT_ON then
      { s0 with procStart := current, internalState := PBDL_STATE_I_ON }
    else { s0 with procStart := 0, internalState := PBDL_STATE_I_OFF },
      PBDL_STATE_E_SINGLE)
  else if s0.internalState = PBDL_STATE_I_OFF then
    (if switchState = SW_STATE_DEFAULT_ON then
      { s0 with procStart := current, internalState := PBDL_STATE_I_ON }
    else s0, PBDL_STATE_E_OFF)
  else if s0.internalState = PBDL_STATE_I_ON then
    if switchState = SW_STATE_DEFAULT_ON then (s0, PBDL_STATE_E_OFF)
    else if s0.minLongMillis > 0 ∧ procDuration > s0.minLongMillis then
      ({ s0 with internalState := PBDL_STATE_I_OFF, procStart := 0 }, PBDL_STATE_E_LONG)
    else if s0.maxDoubleMillis > 0 ∧ procDuration < s0.maxDoubleMillis then
      ({ s0 with internalState := PBDL_STATE_I_DBLOFF }, PBDL_STATE_E_OFF)
    else ({ s0 with internalState := PBDL_STATE_I_OFF, procStart := 0 }, PBDL_STATE_E_SINGLE)
  else if s0.internalState = PBDL_STATE_I_DBLOFF then
    (if switchState = SW_STATE_DEFAULT_ON then
      { s0 with procStart := current, internalState := PBDL_STATE_I_DBL2ON }
    else s0, PBDL_STATE_E_OFF)
  else if s0.internalState = PBDL_STATE_I_DBL2ON then
    if ¬switchState = SW_STATE_DEFAULT_ON then
      ({ s0 with internalState := PBDL_STATE_I_OFF, procStart := 0 }, PBDL_STATE_E_DOUBLE)
    else (s0, PBDL_STATE_E_OFF)
  else if s0.internalState = PBDL_STATE_I_LONGTIMEOUT then
    (if ¬switchState = SW_STATE_DEFAULT_ON then
      { s0 with internalState := PBDL_STATE_I_OFF, procStart := 0 }
    else s0, PBDL_STATE_E_OFF)
  else (s0, PBDL_STATE_E_OFF)

/-- Stepping `PushButtonDoubleLongAnalyzer` over a list of
(`millis()` value, raw symbol) pairs, collecting the outputs. -/
def PBDL.run (s : PBDLState) : List (Nat × Nat) → List Nat
  | [] => []
  | x :: xs =>
    let r := PBDL.getAnalyzerState s x.1 x.2
    r.2 :: PBDL.run r.1 xs

/-- `REA_STATE_E_OFF`. -/
def REA_STATE_E_OFF : Nat := 0
/-- `REA_STATE_E_DIRECTION_R`. -/
def REA_STATE_E_DIRECTION_R : Nat := 1
/-- `REA_STATE_E_DIRECTION_L`. -/
def REA_STATE_E_DIRECTION_L : Nat := 2
/-- `REA_STATE_I_OFF`. -/
def REA_STATE_I_OFF : Nat := 3
/-- `REA_STATE_I_RIGHT_A`. -/
def REA_STATE_I_RIGHT_A : Nat := 4
/-- `REA_STATE_I_LEFT_B`. -/
def REA_STATE_I_LEFT_B : Nat := 5
/-- `REA_STATE_I_UNDEFINED` (`0xFF`). -/
def REA_STATE_I_UNDEFINED : Nat := 255
/-- `REA_SWSTATE_OFF`. -/
def REA_SWSTATE_OFF : Nat := 0
/-- `REA_SWSTATE_A`. -/
def REA_SWSTATE_A : Nat := 1
/-- `REA_SWSTATE_B`. -/
def REA_SWSTATE_B : Nat := 2
/-- `REA_SWSTATE_AB`. -/
def REA_SWSTATE_AB : Nat := 3

/-- The single field of a `RotaryEncoderAnalyzer` instance. -/
structure REAState where
  internalState : Nat
deriving Repr, DecidableEq

/-- `RotaryEncoderAnalyzer`'s constructor/reset state. -/
def REA.init : REAState := { internalState := REA_STATE_I_UNDEFINED }

/-- `RotaryEncoderAnalyzer::getReadCycleMillis`: the constant 2. -/
def REA.getReadCycleMillis : Nat := 2

/-- `RotaryEncoderAnalyzer::getAnalyzerState` (time-independent). -/
def REA.getAnalyzerState (s : REAState) (switchState : Nat) : REAState × Nat :=
  let s0 := if s.internalState = REA_STATE_I_UNDEFINED then
      { internalState := REA_STATE_I_OFF } else s
  if s0.internalState = REA_STATE_I_OFF then
    if switchState = REA_SWSTATE_A then
      ({ internalState := REA_STATE_I_RIGHT_A }, REA_STATE_E_OFF)
    else if switchState = REA_SWSTATE_B then
      ({ internalState := REA_STATE_I_LEFT_B }, REA_STATE_E_OFF)
    else (s0, REA_STATE_E_OFF)
  else if s0.internalState = REA_STATE_I_RIGHT_A then
    if switchState = REA_SWSTATE_OFF then
      ({ internalState := REA_STATE_I_OFF }, REA_STATE_E_DIRECTION_R)
    else (s0, REA_STATE_E_OFF)
  else if s0.internalState = REA_STATE_I_LEFT_B then
    if switchState = REA_SWSTATE_OFF then
      ({ internalState := REA_STATE_I_OFF }, REA_STATE_E_DIRECTION_L)
    else (s0, REA_STATE_E_OFF)
  else (s0, REA_STATE_E_OFF)

/-- Stepping `RotaryEncoderAnalyzer` over a list of raw symbols,
collecting the outputs. -/
def REA.run (s : REAState) : List Nat → List Nat
  | [] => []
  | x :: xs =>
    let r := REA.getAnalyzerState s x
    r.2 :: REA.run r.1 xs

/-- `usub32` is plain subtraction when no wrap occurs. -/
theorem usub32_of_le (a b : Nat) (hba : b ≤ a) (ha : a < 4294967296) :
    usub32 a b = a - b := by
  unfold usub32
  rw [Nat.mod_eq_of_lt ha, Nat.mod_eq_of_lt (lt_of_le_of_lt hba ha)]
  have h : a + 4294967296 - b = a - b + 4294967296 := by omega
  rw [h, Nat.add_mod_right, Nat.mod_eq_of_lt (by omega)]

/-- A poll during an active debounce window is fully suppressed: nothing
changes and the result is `false`. -/
theorem hasChanged_debounce_suppressed {σ : Type}
    (ssa : Option (SSA σ)) (cfg : SwitchConfig) (sw : SwitchState) (a : σ)
    (current rawRead : Nat) (hd : sw.debouncing = true)
    (hw : usub32 current sw.lastReadMillis < cfg.debounceMillis) :
    hasChanged ssa cfg sw a current rawRead = (sw, a, false) := by
  unfold hasChanged
  rw [if_pos (by exact ⟨hd, hw⟩)]

/-- A poll that samples a symbol differing from `lastStableRaw` while a
debounce window is configured only raises the debounce flag: result
`false`, `lastRawState` untouched. -/
theorem hasChanged_debounce_entry {σ : Type}
    (ssa : Option (SSA σ)) (cfg : SwitchConfig) (sw : SwitchState) (a : σ)
    (current rawRead : Nat) (hd : sw.debouncing = false)
    (hc : ¬(cfg.readCycleMillis > 0 ∧ usub32 current sw.lastReadMillis < cfg.readCycleMillis))
    (hdb : cfg.debounceMillis > 0)
    (hne : sw.lastRawState ≠ effRaw ssa cfg rawRead) :
    hasChanged ssa cfg sw a current rawRead =
      ({ sw with lastReadMillis := current, debouncing := true }, a, false) := by
  unfold hasChanged
  rw [if_neg (by simp [hd]), if_neg (by simp only [hd, Bool.not_eq_true, not_false_eq_true, true_and]; exact hc),
    if_pos (by exact ⟨by simp [hd], hdb, hne⟩)]

/-- A poll with the debounce flag raised whose window has elapsed commits
whatever the single new read yields as `lastRawState`, with no
re-verification, and clears the flag. -/
theorem hasChanged_debounce_commit {σ : Type}
    (ssa : Option (SSA σ)) (cfg : SwitchConfig) (sw : SwitchState) (a : σ)
    (current rawRead : Nat) (hd : sw.debouncing = true)
    (hw : ¬usub32 current sw.lastReadMillis < cfg.debounceMillis) :
    (hasChanged ssa cfg sw a current rawRead).1.lastRawState = effRaw ssa cfg rawRead ∧
    (hasChanged ssa cfg sw a current rawRead).1.debouncing = false ∧
    (hasChanged ssa cfg sw a current rawRead).1.lastReadMillis = current := by
  unfold hasChanged
  rw [if_neg (by simp [hd, hw]), if_neg (by simp [hd]), if_neg (by simp [hd])]
  dsimp only
  split_ifs with h
  · simp
  · simp

/-- **C1.** `poll()` returns `true` exactly when that call changed the value
of `currentState`: for every analyzer, configuration, engine state,
analyzer state, timestamp and raw read, the boolean result of
`hasChanged` is `true` iff the resulting `currentState` differs from the
previous one; in particular every call suppressed by the cadence gate or
the debounce gate returns `false` and leaves `currentState` unchanged. -/
theorem hasChanged_true_iff_currentState_changed {σ : Type}
    (ssa : Option (SSA σ)) (cfg : SwitchConfig) (sw : SwitchState) (a : σ)
    (current rawRead : Nat) :
    (hasChanged ssa cfg sw a current rawRead).2.2 = true ↔
      (hasChanged ssa cfg sw a current rawRead).1.currentState ≠ sw.currentState := by
  unfold hasChanged
  dsimp only
  split_ifs with h1 h2 h3 h4
  · simp
  · simp
  · simp
  · simp [h4]
  · simp [h4]

/-- **C2.** Immediately after any `poll()` that returns `true`,
`previous_state()` equals the value `current_state()` had immediately
before that call; and on any `poll()` returning `false`, both
`currentState` and `previousState` are unchanged — the two caches are
only ever updated together, in the same `true`-returning step. -/
theorem hasChanged_prev_shift {σ : Type}
    (ssa : Option (SSA σ)) (cfg : SwitchConfig) (sw : SwitchState) (a : σ)
    (current rawRead : Nat) :
    ((hasChanged ssa cfg sw a current rawRead).2.2 = true →
      (hasChanged ssa cfg sw a current rawRead).1.previousState = sw.currentState) ∧
    ((hasChanged ssa cfg sw a current rawRead).2.2 = false →
      (hasChanged ssa cfg sw a current rawRead).1.previousState = sw.previousState ∧
      (hasChanged ssa cfg sw a current rawRead).1.currentState = sw.currentState) := by
  unfold hasChanged
  dsimp only
  split_ifs with h1 h2 h3 h4
  · simp
  · simp
  · simp
  · simp
  · simp

/-- Witness for **C2** at a concrete first-change poll: the fresh engine
with no gating polled at `t = 5` with raw read `1` returns `true`, and
`previousState` afterwards equals the `currentState` from before. -/
theorem hasChanged_prev_shift_witness :
    (hasChanged (σ := Unit) none cfgW swW () 5 1).2.2 = true ∧
    (hasChanged (σ := Unit) none cfgW swW () 5 1).1.previousState = swW.currentState :=
  ⟨by decide, (hasChanged_prev_shift (σ := Unit) none cfgW swW () 5 1).1 (by decide)⟩

/-- **C3.** Fixed-delay single-resample debounce: if the engine is not
debouncing, a debounce window is configured, the cadence gate passes, and
the sampled (post-inversion) symbol differs from `lastStableRaw`, then the
poll enters the debounce phase, returns `false` and leaves `lastRawState`
untouched; any poll strictly inside the window changes nothing; and the
first poll at least `debounceMillis` after that sample commits whatever
raw symbol that single read yields as `lastRawState` (no re-verification
against the earlier value) and clears the flag. -/
theorem debounce_single_resample {σ : Type}
    (ssa : Option (SSA σ)) (cfg : SwitchConfig) (sw : SwitchState) (a : σ)
    (t1 r1 tm rm t2 r2 : Nat)
    (hd : sw.debouncing = false)
    (hdb : cfg.debounceMillis > 0)
    (hc : ¬(cfg.readCycleMillis > 0 ∧ usub32 t1 sw.lastReadMillis < cfg.readCycleMillis))
    (hne : sw.lastRawState ≠ effRaw ssa cfg r1)
    (hm1 : t1 ≤ tm) (hm2 : tm < 4294967296) (hm3 : tm - t1 < cfg.debounceMillis)
    (h21 : t1 ≤ t2) (h22 : t2 < 4294967296) (h23 : cfg.debounceMillis ≤ t2 - t1) :
    (hasChanged ssa cfg sw a t1 r1).2.2 = false ∧
    (hasChanged ssa cfg sw a t1 r1).1.debouncing = true ∧
    (hasChanged ssa cfg sw a t1 r1).1.lastRawState = sw.lastRawState ∧
    (∀ b : σ, hasChanged ssa cfg (hasChanged ssa cfg sw a t1 r1).1 b tm rm =
      ((hasChanged ssa cfg sw a t1 r1).1, b, false)) ∧
    (∀ b : σ,
      (hasChanged ssa cfg (hasChanged ssa cfg sw a t1 r1).1 b t2 r2).1.lastRawState =
        effRaw ssa cfg r2 ∧
      (hasChanged ssa cfg (hasChanged ssa cfg sw a t1 r1).1 b t2 r2).1.debouncing = false) := by
  have e1 := hasChanged_debounce_entry ssa cfg sw a t1 r1 hd hc hdb hne
  rw [e1]
  refine ⟨rfl, rfl, rfl, ?_, ?_⟩
  · intro b
    exact hasChanged_debounce_suppressed ssa cfg _ b tm rm rfl
      (by rw [usub32_of_le tm t1 hm1 hm2]; exact hm3)
  · intro b
    have h := hasChanged_debounce_commit ssa cfg
      ({ sw with lastReadMillis := t1, debouncing := true }) b t2 r2 rfl
      (by rw [usub32_of_le t2 t1 h21 h22]; omega)
    exact ⟨h.1, h.2.1⟩

/-- Witness for **C3**: fresh engine, 20 ms debounce window, entry sample
at `t = 30` reading raw `1`, a suppressed poll at `t = 40`, and the commit
poll at `t = 60` reading raw `0`, which is committed as `lastRawState`. -/
theorem debounce_single_resample_witness :
    (hasChanged (σ := Unit) none cfgD swW () 30 1).2.2 = false ∧
    (hasChanged (σ := Unit) none cfgD swW () 30 1).1.debouncing = true ∧
    (hasChanged (σ := Unit) none cfgD swW () 30 1).1.lastRawState = swW.lastRawState ∧
    hasChanged none cfgD (hasChanged (σ := Unit) none cfgD swW () 30 1).1 () 40 1 =
      ((hasChanged (σ := Unit) none cfgD swW () 30 1).1, (), false) ∧
    (hasChanged none cfgD (hasChanged (σ := Unit) none cfgD swW () 30 1).1 () 60 0).1.lastRawState =
      effRaw (σ := Unit) none cfgD 0 ∧
    (hasChanged none cfgD (hasChanged (σ := Unit) none cfgD swW () 30 1).1 () 60 0).1.debouncing =
      false := by
  have h := debounce_single_resample (σ := Unit) none cfgD swW () 30 1 40 1 60 0
    rfl (by decide) (by decide) (by decide) (by decide) (by decide) (by decide)
    (by decide) (by decide) (by decide)
  exact ⟨h.1, h.2.1, h.2.2.1, h.2.2.2.1 (), (h.2.2.2.2 ()).1, (h.2.2.2.2 ()).2⟩

/-- `List.getD` after `List.set` at the written index. -/
theorem rangeSet_getD_self (N s v : Nat) (h : s < N) :
    ((List.range N).set s v).getD s 0 = v := by
  rw [List.getD_eq_getElem?_getD, List.getElem?_set_eq_of_lt v (by simpa using h)]
  rfl

/-- `List.getD` after `List.set` at another index keeps the identity. -/
theorem rangeSet_getD_ne (N s s2 v : Nat) (h : s2 < N) (hne : s2 ≠ s) :
    ((List.range N).set s v).getD s2 0 = s2 := by
  rw [List.getD_eq_getElem?_getD, List.getElem?_set_ne (by omega), List.getElem?_range h]
  rfl

/-- `List.getD` on the identity-initialized table. -/
theorem range_getD (N s2 : Nat) (h : s2 < N) : (List.range N).getD s2 0 = s2 := by
  rw [List.getD_eq_getElem?_getD, List.getElem?_range h]
  rfl

/-- The clamp result is between 2 and 64. -/
theorem clampNumState_le (n : Nat) : 2 ≤ clampNumState n ∧ clampNumState n ≤ 64 := by
  unfold clampNumState
  split_ifs <;> omega

/-- `getMappedState` on a state with a table and a defined current state
is a table lookup. -/
theorem getMappedState_some (m : List Nat) (c p lr lrm : Nat) (d : Bool) (hc : c ≠ 255) :
    Switch.getMappedState ⟨c, p, lr, lrm, d, some m⟩ = m.getD c 0 := by
  unfold Switch.getMappedState
  simp [SW_STATE_UNDEFINED, hc]

/-- `setMapping` with a table and an in-range state overwrites one entry. -/
theorem setMapping_some (cfg : SwitchConfig) (c p lr lrm : Nat) (d : Bool)
    (m : List Nat) (s v : Nat) (hs : s < cfg.numState) :
    Switch.setMapping cfg ⟨c, p, lr, lrm, d, some m⟩ s v =
      ⟨c, p, lr, lrm, d, some (m.set s v)⟩ := by
  unfold Switch.setMapping
  dsimp only
  rw [if_neg (by omega)]

/-- `Switch::init` with mapping enabled and no caller buffer yields the
fresh caches and the identity table. -/
theorem initState_mapping (n : Nat) (b : Option (List Nat)) :
    Switch.initState n true b = ⟨255, 255, 255, 0, false, some (List.range (clampNumState n))⟩ :=
  rfl

/-- **C4** (the claim fails on the code): with `repeatMs = 0` — documented
by the source itself as "no continous pushes are recognized" — and
`longStartMs = 500`, holding the button (raw `ON` sampled at 0 ms and
600 ms) makes `PushButtonRepeatAnalyzer::getAnalyzerState` return
`CONT_A` on the second call, because the transition out of `ON` at line
173 tests only `_longStartMillis > 0` and never `_repeatMillis > 0`. -/
theorem pbr_repeat_zero_still_returns_cont :
    PBR.run (PBR.init 500 0) [(0, SW_STATE_DEFAULT_ON), (600, SW_STATE_DEFAULT_ON)] =
      [PBR_STATE_E_OFF, PBR_STATE_E_CONT_A] := by
  decide

/-- **C5** counterexample: the default-constructed
`PushButtonDoubleLongAnalyzer` (`maxDoubleMs = 0`, `minLongMs = 0`)
returns a read-cycle hint of 0, not "at least 1". -/
theorem pbdl_read_cycle_hint_zero :
    PBDL.getReadCycleMillis (PBDL.init 0 0 false) = 0 ∧
    ¬1 ≤ PBDL.getReadCycleMillis (PBDL.init 0 0 false) := by
  decide

/-- **C5** amended: `PushButtonRepeatAnalyzer` always hints at least 1 ms,
namely `max(repeatMs/20, 1)` after the 2000 ms clamp, and
`RotaryEncoderAnalyzer` hints the constant 2; but
`PushButtonDoubleLongAnalyzer` hints `max(maxDoubleMs, minLongMs) / 20`
truncated to a byte — its *longest* window over 20, which is 0 whenever
both windows are smaller than 20 ms. -/
theorem read_cycle_hint_formulas (l r md ml : Nat) (e : Bool) :
    1 ≤ PBR.getReadCycleMillis (PBR.init l r) ∧
    PBR.getReadCycleMillis (PBR.init l r) = max (min r 2000 / 20) 1 ∧
    REA.getReadCycleMillis = 2 ∧
    PBDL.getReadCycleMillis (PBDL.init md ml e) = u8 (max md ml / 20) := by
  have hit : (PBR.init l r).repeatMillis = min r 2000 := by
    unfold PBR.init
    dsimp only
    split <;> omega
  have hle : min r 2000 / 20 ≤ 100 := by
    calc min r 2000 / 20 ≤ 2000 / 20 := Nat.div_le_div_right (Nat.min_le_right r 2000)
    _ = 100 := by norm_num
  have hmax : max (min r 2000 / 20) 1 < 256 := by
    rw [Nat.max_lt]
    omega
  have hval : PBR.getReadCycleMillis (PBR.init l r) = max (min r 2000 / 20) 1 := by
    unfold PBR.getReadCycleMillis u8
    rw [hit, Nat.mod_eq_of_lt hmax]
  refine ⟨?_, hval, rfl, rfl⟩
  rw [hval]
  exact Nat.le_max_right _ 1

/-- **C6.** From the reset state, `RotaryEncoderAnalyzer` maps the raw
sequence OFF, A, AB, B, OFF to exactly one `DIRECTION_R` (on the final
step, all others OFF); the mirrored sequence to exactly one
`DIRECTION_L`; and the shortened OFF, A, OFF still to one `DIRECTION_R`. -/
theorem rea_quadrature_sequences :
    REA.run REA.init
        [REA_SWSTATE_OFF, REA_SWSTATE_A, REA_SWSTATE_AB, REA_SWSTATE_B, REA_SWSTATE_OFF] =
      [REA_STATE_E_OFF, REA_STATE_E_OFF, REA_STATE_E_OFF, REA_STATE_E_OFF,
        REA_STATE_E_DIRECTION_R] ∧
    REA.run REA.init
        [REA_SWSTATE_OFF, REA_SWSTATE_B, REA_SWSTATE_AB, REA_SWSTATE_A, REA_SWSTATE_OFF] =
      [REA_STATE_E_OFF, REA_STATE_E_OFF, REA_STATE_E_OFF, REA_STATE_E_OFF,
        REA_STATE_E_DIRECTION_L] ∧
    REA.run REA.init [REA_SWSTATE_OFF, REA_SWSTATE_A, REA_SWSTATE_OFF] =
      [REA_STATE_E_OFF, REA_STATE_E_OFF, REA_STATE_E_DIRECTION_R] := by
  decide

/-- **C7.** `PushButtonDoubleLongAnalyzer` with `maxDoubleMs = 400` (long
detection off): press at 0 ms, release at 50 ms, second press at 100 ms,
second release at 200 ms yields exactly one `DOUBLE` and no `SINGLE`
(also when polled again at 500 ms); the same first press/release with no
second press yields, at the first poll after the 400 ms window (here
500 ms), exactly one retroactive `SINGLE` and no `DOUBLE`. -/
theorem pbdl_double_and_single_scenarios :
    PBDL.run (PBDL.init 400 0 false)
        [(0, SW_STATE_DEFAULT_ON), (50, SW_STATE_DEFAULT_OFF), (100, SW_STATE_DEFAULT_ON),
          (200, SW_STATE_DEFAULT_OFF), (500, SW_STATE_DEFAULT_OFF)] =
      [PBDL_STATE_E_OFF, PBDL_STATE_E_OFF, PBDL_STATE_E_OFF, PBDL_STATE_E_DOUBLE,
        PBDL_STATE_E_OFF] ∧
    PBDL.run (PBDL.init 400 0 false)
        [(0, SW_STATE_DEFAULT_ON), (50, SW_STATE_DEFAULT_OFF), (200, SW_STATE_DEFAULT_OFF),
          (500, SW_STATE_DEFAULT_OFF)] =
      [PBDL_STATE_E_OFF, PBDL_STATE_E_OFF, PBDL_STATE_E_OFF, PBDL_STATE_E_SINGLE] := by
  decide

/-- **C8.** With the mapping table enabled: after `set_mapping(s, v)` with
`s < numOutputStates`, `mapped_state()` returns `v` whenever
`state() = s`; entries never written keep their identity initialization;
and `mapped_state()` / `mapped_previous_state()` return `UNDEFINED`
itself, never a table lookup, when the corresponding state is
`UNDEFINED`. -/
theorem mapping_round_trip (n rc db : Nat) (inv : Bool) (s v s2 : Nat)
    (hs : s < clampNumState n) (hs2 : s2 < clampNumState n) (hne : s2 ≠ s) :
    Switch.getMappedState
      { Switch.setMapping (Switch.initConfig n rc db inv) (Switch.initState n true none) s v with
        currentState := s } = v ∧
    Switch.getMappedState
      { Switch.setMapping (Switch.initConfig n rc db inv) (Switch.initState n true none) s v with
        currentState := s2 } = s2 ∧
    Switch.getMappedState { Switch.initState n true none with currentState := s2 } = s2 ∧
    (∀ sw : SwitchState, sw.currentState = SW_STATE_UNDEFINED →
      Switch.getMappedState sw = SW_STATE_UNDEFINED) ∧
    (∀ sw : SwitchState, sw.previousState = SW_STATE_UNDEFINED →
      Switch.getPrevMappedState sw = SW_STATE_UNDEFINED) := by
  have h64 := clampNumState_le n
  have hset : Switch.setMapping (Switch.initConfig n rc db inv) (Switch.initState n true none) s v
      = ⟨255, 255, 255, 0, false, some ((List.range (clampNumState n)).set s v)⟩ := by
    rw [initState_mapping n none]
    exact setMapping_some _ 255 255 255 0 false _ s v hs
  refine ⟨?_, ?_, ?_, ?_, ?_⟩
  · rw [hset]
    show Switch.getMappedState
      ⟨s, 255, 255, 0, false, some ((List.range (clampNumState n)).set s v)⟩ = v
    rw [getMappedState_some _ s 255 255 0 false (by omega)]
    exact rangeSet_getD_self _ s v hs
  · rw [hset]
    show Switch.getMappedState
      ⟨s2, 255, 255, 0, false, some ((List.range (clampNumState n)).set s v)⟩ = s2
    rw [getMappedState_some _ s2 255 255 0 false (by omega)]
    exact rangeSet_getD_ne _ s s2 v hs2 hne
  · rw [initState_mapping n none]
    show Switch.getMappedState ⟨s2, 255, 255, 0, false, some (List.range (clampNumState n))⟩ = s2
    rw [getMappedState_some _ s2 255 255 0 false (by omega)]
    exact range_getD _ s2 hs2
  · intro sw h
    unfold Switch.getMappedState
    rcases hmv : sw.mapValues with _ | m
    · exact h
    · dsimp only
      rw [if_pos h]
      exact h
  · intro sw h
    unfold Switch.getPrevMappedState
    rcases hmv : sw.mapValues with _ | m
    · exact h
    · dsimp only
      rw [if_pos h]
      exact h

/-- Witness for **C8**: a 10-state mapped switch, `set_mapping(3, 7)`;
reading state 3 yields 7 and the untouched state 5 still maps to 5. -/
theorem mapping_round_trip_witness :
    Switch.getMappedState
      { Switch.setMapping (Switch.initConfig 10 0 0 false) (Switch.initState 10 true none) 3 7 with
        currentState := 3 } = 7 ∧
    Switch.getMappedState
      { Switch.setMapping (Switch.initConfig 10 0 0 false) (Switch.initState 10 true none) 3 7 with
        currentState := 5 } = 5 := by
  have h := mapping_round_trip 10 0 0 false 3 7 5 (by decide) (by decide) (by decide)
  exact ⟨h.1, h.2.1⟩

/-- **C9.** Construction never rejects configuration: the stored
`numOutputStates` always lies in `[2, 64]` — values below 2 become 2,
above 64 become 64, in-range values are kept — and
`PushButtonRepeatAnalyzer` clamps `longStartMs` and `repeatMs` to 2000;
all constructors are total functions with no error outcome. -/
theorem construction_clamps (n rc db l r : Nat) (inv : Bool) :
    2 ≤ clampNumState n ∧ clampNumState n ≤ 64 ∧
    (n < 2 → clampNumState n = 2) ∧
    (n > 64 → clampNumState n = 64) ∧
    (2 ≤ n → n ≤ 64 → clampNumState n = n) ∧
    (Switch.initConfig n rc db inv).numState = clampNumState n ∧
    (PBR.init l r).longStartMillis = min l 2000 ∧
    (PBR.init l r).repeatMillis = min r 2000 := by
  have h1 := clampNumState_le n
  refine ⟨h1.1, h1.2, ?_, ?_, ?_, rfl, ?_, ?_⟩
  · intro h
    unfold clampNumState
    rw [if_pos h]
  · intro h
    unfold clampNumState
    rw [if_neg (by omega), if_pos h]
  · intro h2 h64
    unfold clampNumState
    rw [if_neg (by omega), if_neg (by omega)]
  · unfold PBR.init
    dsimp only
    split <;> omega
  · unfold PBR.init
    dsimp only
    split <;> omega

/-- Witness for **C9** at concrete inputs: 1 is clamped up to 2, 100 down
to 64, 10 kept, and out-of-range `PushButtonRepeatAnalyzer` timings are
clamped to 2000. -/
theorem construction_clamps_witness :
    clampNumState 1 = 2 ∧ clampNumState 100 = 64 ∧ clampNumState 10 = 10 ∧
    (PBR.init 3000 5000).longStartMillis = 2000 ∧
    (PBR.init 3000 5000).repeatMillis = 2000 := by
  obtain ⟨-, -, h2, -, -, -, -, -⟩ := construction_clamps 1 0 0 3000 5000 false
  obtain ⟨-, -, -, h64, -, -, -, -⟩ := construction_clamps 100 0 0 3000 5000 false
  obtain ⟨-, -, -, -, hid, -, hl, hr⟩ := construction_clamps 10 0 0 3000 5000 false
  refine ⟨h2 (by norm_num), h64 (by norm_num), hid (by norm_num) (by norm_num), ?_, ?_⟩
  · rw [hl]
    decide
  · rw [hr]
    decide

/-- **C10.** `reset()` leaves the mapping table untouched: after
`set_mapping(s, v)` followed by `reset()`, the table entry for `s` is
still `v` (so `mapped_state()` returns `v` once `state() = s` again);
`reset()` restores only `currentState`, `previousState`, `lastStableRaw`,
the sample timer, the debounce flag, and the analyzer, and preserves
`_mapValues` for every engine state. -/
theorem reset_leaves_mapping_untouched {σ : Type} (ssa : Option (SSA σ)) (a : σ)
    (n rc db : Nat) (inv : Bool) (s v : Nat) (hs : s < clampNumState n) :
    (Switch.reset ssa
        (Switch.setMapping (Switch.initConfig n rc db inv) (Switch.initState n true none) s v)
        a).1.mapValues =
      (Switch.setMapping (Switch.initConfig n rc db inv)
        (Switch.initState n true none) s v).mapValues ∧
    Switch.getMappedState
      { (Switch.reset ssa
          (Switch.setMapping (Switch.initConfig n rc db inv) (Switch.initState n true none) s v)
          a).1 with currentState := s } = v ∧
    (∀ sw : SwitchState, (Switch.reset ssa sw a).1.mapValues = sw.mapValues) ∧
    (∀ sw : SwitchState,
      (Switch.reset ssa sw a).1.currentState = SW_STATE_UNDEFINED ∧
      (Switch.reset ssa sw a).1.previousState = SW_STATE_UNDEFINED ∧
      (Switch.reset ssa sw a).1.lastRawState = SW_STATE_UNDEFINED ∧
      (Switch.reset ssa sw a).1.lastReadMillis = 0 ∧
      (Switch.reset ssa sw a).1.debouncing = false) ∧
    (∀ sw : SwitchState, (Switch.reset ssa sw a).2 =
      match ssa with
      | some an => an.resetState a
      | none => a) := by
  have h64 := clampNumState_le n
  have hset : Switch.setMapping (Switch.initConfig n rc db inv) (Switch.initState n true none) s v
      = ⟨255, 255, 255, 0, false, some ((List.range (clampNumState n)).set s v)⟩ := by
    rw [initState_mapping n none]
    exact setMapping_some _ 255 255 255 0 false _ s v hs
  refine ⟨rfl, ?_, fun sw => rfl, fun sw => ⟨rfl, rfl, rfl, rfl, rfl⟩, fun sw => rfl⟩
  rw [hset]
  show Switch.getMappedState
    ⟨s, 255, 255, 0, false, some ((List.range (clampNumState n)).set s v)⟩ = v
  rw [getMappedState_some _ s 255 255 0 false (by omega)]
  exact rangeSet_getD_self _ s v hs

/-- Witness for **C10**: a 4-state mapped switch with `set_mapping(1, 9)`;
after `reset()` the state-1 entry still reads back 9. -/
theorem reset_leaves_mapping_untouched_witness :
    Switch.getMappedState
      { (Switch.reset (σ := Unit) none
          (Switch.setMapping (Switch.initConfig 4 0 0 false) (Switch.initState 4 true none) 1 9)
          ()).1 with currentState := 1 } = 9 := by
  obtain ⟨-, h, -, -, -⟩ :=
    reset_leaves_mapping_untouched (σ := Unit) none () 4 0 0 false 1 9 (by decide)
  exact h
